import Mathlib

/- Verification development for sqllite2influxdb.py: a script that migrates
   Home Assistant state history from a sqlite database into InfluxDB.
   The script is embedded shallowly: python stdlib behaviour (json.loads,
   float(), str.isdigit, datetime formatting) and the relevant fragment of
   sqlite3 value-comparison semantics are modelled as Lean functions, and the
   functions of the script itself are translated one-to-one.  Machine floats
   are modelled as rationals (all values exercised here are small decimals,
   exactly representable in IEEE doubles). -/

set_option maxRecDepth 16384

/-- Dynamically typed scalar held by a sqlite column, as surfaced by the
python sqlite3 module (NULL, numeric, or text). -/
inductive SqlVal
  | null
  | num (q : ℚ)
  | text (s : String)
  deriving DecidableEq, Repr

/-- A python value produced by json.loads: None, bool, int/float, str, list,
dict.  Numbers are modelled as rationals. -/
inductive Json
  | null
  | bool (b : Bool)
  | num (q : ℚ)
  | str (s : String)
  | arr (elems : List Json)
  | obj (members : List (String × Json))
  deriving Repr

/-- One row of the extraction query:
SELECT s.state, sm.entity_id, s.last_updated_ts, sa.shared_attrs.
last_updated_ts holds numeric epoch seconds in the Home Assistant schema
(line 114 of the source converts it with datetime.fromtimestamp), and
shared_attrs is nullable because of the LEFT JOIN. -/
structure SourceRow where
  state : SqlVal
  entity_id : String
  last_updated_ts : ℚ
  shared_attrs : Option String
  deriving DecidableEq, Repr

/-- A field value on an InfluxDB point: float or string. -/
inductive FieldVal
  | float (q : ℚ)
  | str (s : String)
  deriving DecidableEq, Repr

/-- An InfluxDB data point as assembled by the script: measurement name,
tag list, field list, timestamp (epoch seconds; the local datetime produced
by datetime.fromtimestamp denotes this same instant). -/
structure InfluxPoint where
  measurement : String
  tags : List (String × String)
  fields : List (String × FieldVal)
  time : ℚ
  deriving DecidableEq, Repr

/-- The logging calls the script makes on its recoverable paths. -/
inductive LogEvent
  | parseAttrsFailed
  | fieldSkipped (key : String)
  | writeError
  | watermarkQueryError
  deriving DecidableEq, Repr

/- ---------------------------------------------------------------------
   Character and string helpers shared by the stdlib models.
   --------------------------------------------------------------------- -/

/-- Left brace character (written via its code point). -/
def lbrace : Char := Char.ofNat 123

/-- Right brace character (written via its code point). -/
def rbrace : Char := Char.ofNat 125

/-- JSON whitespace (also used to model python float() stripping). -/
def isJsonWs (c : Char) : Bool :=
  c = ' ' || c = '\t' || c = '\n' || c = '\r'

/-- Drop leading whitespace. -/
def skipWs (cs : List Char) : List Char := cs.dropWhile isJsonWs

/-- Read a maximal run of ASCII digits, returning (value, digit count, rest). -/
def readDigitsAux : List Char → Nat → Nat → Nat × Nat × List Char
  | [], v, n => (v, n, [])
  | c :: cs, v, n =>
    if c.isDigit then readDigitsAux cs (v * 10 + (c.toNat - 48)) (n + 1)
    else (v, n, c :: cs)

/-- Read a maximal run of ASCII digits from the front of a character list. -/
def readDigits (cs : List Char) : Nat × Nat × List Char := readDigitsAux cs 0 0

/-- Match a literal sequence of characters, returning the remainder. -/
def stripLit : List Char → List Char → Option (List Char)
  | [], cs => some cs
  | _ :: _, [] => none
  | p :: ps, c :: cs => if c = p then stripLit ps cs else none

/-- Hexadecimal digit value, if any. -/
def hexVal (c : Char) : Option Nat :=
  if c.isDigit then some (c.toNat - 48)
  else if 'a' ≤ c ∧ c ≤ 'f' then some (c.toNat - 87)
  else if 'A' ≤ c ∧ c ≤ 'F' then some (c.toNat - 55)
  else none

/- ---------------------------------------------------------------------
   Model of python json.loads (the JSON grammar as accepted by the json
   module; the NaN/Infinity extension is not modelled and surrogate pairs
   in \u escapes are taken as single code units, neither of which is
   exercised by this pipeline).
   --------------------------------------------------------------------- -/

/-- Parse the body of a JSON string after the opening quote. -/
def parseStringBody : List Char → List Char → Option (String × List Char)
  | [], _ => none
  | '"' :: rest, acc => some (String.mk acc.reverse, rest)
  | '\\' :: esc, acc =>
    match esc with
    | '"' :: r => parseStringBody r ('"' :: acc)
    | '\\' :: r => parseStringBody r ('\\' :: acc)
    | '/' :: r => parseStringBody r ('/' :: acc)
    | 'b' :: r => parseStringBody r (Char.ofNat 8 :: acc)
    | 'f' :: r => parseStringBody r (Char.ofNat 12 :: acc)
    | 'n' :: r => parseStringBody r ('\n' :: acc)
    | 'r' :: r => parseStringBody r (Char.ofNat 13 :: acc)
    | 't' :: r => parseStringBody r ('\t' :: acc)
    | 'u' :: h1 :: h2 :: h3 :: h4 :: r =>
      match hexVal h1, hexVal h2, hexVal h3, hexVal h4 with
      | some a, some b, some c, some d =>
        parseStringBody r (Char.ofNat (((a * 16 + b) * 16 + c) * 16 + d) :: acc)
      | _, _, _, _ => none
    | _ => none
  | c :: rest, acc =>
    if c.toNat < 32 then none else parseStringBody rest (c :: acc)

/-- Build the rational value of a decimal literal with integer part ip,
fraction digits fp (fc of them) and decimal exponent ex, negated when neg.
Stated with mkRat so that the kernel can evaluate it (the ring operations
on ℚ are irreducible by design). -/
def decToRat (neg : Bool) (ip fp fc : Nat) (ex : Int) : ℚ :=
  let base : Int := ((ip * 10 ^ fc + fp : Nat) : Int)
  let n : Int := if neg then -base else base
  if 0 ≤ ex then mkRat (n * (10 : Int) ^ ex.toNat) (10 ^ fc)
  else mkRat n (10 ^ fc * 10 ^ (-ex).toNat)

/-- Parse a JSON number (strict grammar: no leading zeros, a fraction or
exponent part must contain at least one digit). -/
def parseJsonNumber (cs : List Char) : Option (ℚ × List Char) :=
  let (neg, cs1) := match cs with
    | '-' :: t => (true, t)
    | t => (false, t)
  let ipart : Option (Nat × List Char) :=
    match cs1 with
    | '0' :: t =>
      match t with
      | d :: _ => if d.isDigit then none else some (0, t)
      | [] => some (0, [])
    | t =>
      let (v, n, r) := readDigits t
      if n = 0 then none else some (v, r)
  match ipart with
  | none => none
  | some (ip, cs2) =>
    let fpart : Option (Nat × Nat × List Char) :=
      match cs2 with
      | '.' :: t =>
        let (v, n, r) := readDigits t
        if n = 0 then none else some (v, n, r)
      | t => some (0, 0, t)
    match fpart with
    | none => none
    | some (fp, fc, cs3) =>
      let epart : Option (Int × List Char) :=
        match cs3 with
        | 'e' :: t =>
          let (eneg, t1) := match t with
            | '-' :: u => (true, u)
            | '+' :: u => (false, u)
            | u => (false, u)
          let (v, n, r) := readDigits t1
          if n = 0 then none else some (if eneg then -(v : Int) else (v : Int), r)
        | 'E' :: t =>
          let (eneg, t1) := match t with
            | '-' :: u => (true, u)
            | '+' :: u => (false, u)
            | u => (false, u)
          let (v, n, r) := readDigits t1
          if n = 0 then none else some (if eneg then -(v : Int) else (v : Int), r)
        | t => some (0, t)
      match epart with
      | none => none
      | some (ex, cs4) => some (decToRat neg ip fp fc ex, cs4)

/-- Insert into a python dict modelled as an association list: an existing
key keeps its position and gets the new value, a new key is appended.
This is the dict construction order used by json.loads for object members
(duplicate keys: last value wins). -/
def dictInsert : List (String × Json) → String → Json → List (String × Json)
  | [], k, v => [(k, v)]
  | (k0, v0) :: rest, k, v =>
    if k0 = k then (k0, v) :: rest else (k0, v0) :: dictInsert rest k v

mutual

/-- Parse one JSON value (fuel bounds the recursion depth; jsonParse passes
more fuel than any input can consume). -/
def parseValue : Nat → List Char → Option (Json × List Char)
  | 0, _ => none
  | Nat.succ fuel, cs =>
    match skipWs cs with
    | [] => none
    | c :: rest =>
      if c = '"' then
        match parseStringBody rest [] with
        | some (s, r) => some (Json.str s, r)
        | none => none
      else if c = lbrace then
        match skipWs rest with
        | c2 :: r2 =>
          if c2 = rbrace then some (Json.obj [], r2)
          else parseMembers fuel rest []
        | [] => none
      else if c = '[' then
        match skipWs rest with
        | ']' :: r2 => some (Json.arr [], r2)
        | _ => parseElements fuel rest []
      else if c = 't' then
        match stripLit ['r', 'u', 'e'] rest with
        | some r => some (Json.bool true, r)
        | none => none
      else if c = 'f' then
        match stripLit ['a', 'l', 's', 'e'] rest with
        | some r => some (Json.bool false, r)
        | none => none
      else if c = 'n' then
        match stripLit ['u', 'l', 'l'] rest with
        | some r => some (Json.null, r)
        | none => none
      else
        match parseJsonNumber (c :: rest) with
        | some (q, r) => some (Json.num q, r)
        | none => none

/-- Parse the members of a JSON object (after at least one member is known
to be present), accumulating them with dict semantics. -/
def parseMembers : Nat → List Char → List (String × Json) →
    Option (Json × List Char)
  | 0, _, _ => none
  | Nat.succ fuel, cs, acc =>
    match skipWs cs with
    | '"' :: rest =>
      match parseStringBody rest [] with
      | none => none
      | some (k, r1) =>
        match skipWs r1 with
        | ':' :: r2 =>
          match parseValue fuel r2 with
          | none => none
          | some (v, r3) =>
            let acc2 := dictInsert acc k v
            match skipWs r3 with
            | c4 :: r4 =>
              if c4 = ',' then parseMembers fuel r4 acc2
              else if c4 = rbrace then some (Json.obj acc2, r4)
              else none
            | [] => none
        | _ => none
    | _ => none

/-- Parse the elements of a JSON array (after at least one element is known
to be present). -/
def parseElements : Nat → List Char → List Json → Option (Json × List Char)
  | 0, _, _ => none
  | Nat.succ fuel, cs, acc =>
    match parseValue fuel cs with
    | none => none
    | some (v, r) =>
      match skipWs r with
      | ',' :: r2 => parseElements fuel r2 (v :: acc)
      | ']' :: r2 => some (Json.arr (v :: acc).reverse, r2)
      | _ => none

end

/-- Model of json.loads: parse a complete JSON document (trailing
whitespace allowed, anything else after the value is an error). -/
def jsonParse (s : String) : Option Json :=
  match parseValue (s.length + 1) s.data with
  | some (j, rest) => if (skipWs rest).isEmpty then some j else none
  | none => none

/- ---------------------------------------------------------------------
   Models of the remaining python builtins the script uses.
   --------------------------------------------------------------------- -/

/-- Decimal rendering of a rational (used inside the model of python str()
and repr() for numbers; exact for the finite decimals produced by JSON
literals, which is the only way numbers enter this pipeline). -/
def fracDigits : Nat → Nat → Nat → List Char
  | 0, _, _ => []
  | _, 0, _ => []
  | Nat.succ fuel, rem, d =>
    let r10 := rem * 10
    Char.ofNat (48 + r10 / d) :: fracDigits fuel (r10 % d) d

/-- Model of python str()/repr() for a number parsed from JSON: integers
print without a decimal point, floats with one. -/
def pyNumRepr (q : ℚ) : String :=
  let sign := if q < 0 then "-" else ""
  let n := q.num.natAbs
  let d := q.den
  if d = 1 then sign ++ toString n
  else
    let frac := fracDigits 40 (n % d) d
    sign ++ toString (n / d) ++ "." ++ String.mk (if frac.isEmpty then ['0'] else frac)

mutual

/-- Model of python repr() on values decoded from JSON (str uses quotes,
None/True/False use python spellings).  Only the scalar cases are ever
evaluated by the claims; containers follow the python dict/list layout. -/
def pyRepr : Json → String
  | Json.null => "None"
  | Json.bool b => if b then "True" else "False"
  | Json.num q => pyNumRepr q
  | Json.str s => "\x27" ++ s ++ "\x27"
  | Json.arr xs => "[" ++ pyReprElems xs ++ "]"
  | Json.obj kvs => "\x7b" ++ pyReprMembers kvs ++ "\x7d"

/-- Comma-separated repr of list elements. -/
def pyReprElems : List Json → String
  | [] => ""
  | [x] => pyRepr x
  | x :: y :: xs => pyRepr x ++ ", " ++ pyReprElems (y :: xs)

/-- Comma-separated repr of dict members. -/
def pyReprMembers : List (String × Json) → String
  | [] => ""
  | [(k, v)] => "\x27" ++ k ++ "\x27: " ++ pyRepr v
  | (k, v) :: m :: kvs => "\x27" ++ k ++ "\x27: " ++ pyRepr v ++ ", " ++ pyReprMembers (m :: kvs)

end

/-- Model of python str() on values decoded from JSON: a string is itself,
anything else prints as its repr. -/
def pyStr : Json → String
  | Json.str s => s
  | j => pyRepr j

/-- Model of python float(string): optional surrounding whitespace, optional
sign, decimal digits with optional fraction and exponent.  The inf/nan
spellings and digit-group underscores are not modelled (never produced by
this pipeline). -/
def pyFloat (s : String) : Option ℚ :=
  let cs := s.data.dropWhile isJsonWs
  let (neg, cs1) := match cs with
    | '-' :: t => (true, t)
    | '+' :: t => (false, t)
    | t => (false, t)
  let (ip, ic, cs2) := readDigits cs1
  let (fp, fc, cs3) := match cs2 with
    | '.' :: t => readDigits t
    | t => (0, 0, t)
  if ic + fc = 0 then none
  else
    match cs3 with
    | 'e' :: t =>
      let (eneg, t1) := match t with
        | '-' :: u => (true, u)
        | '+' :: u => (false, u)
        | u => (false, u)
      let (ev, ec, t2) := readDigits t1
      if ec = 0 then none
      else if (t2.dropWhile isJsonWs).isEmpty then
        some (decToRat neg ip fp fc (if eneg then -(ev : Int) else (ev : Int)))
      else none
    | 'E' :: t =>
      let (eneg, t1) := match t with
        | '-' :: u => (true, u)
        | '+' :: u => (false, u)
        | u => (false, u)
      let (ev, ec, t2) := readDigits t1
      if ec = 0 then none
      else if (t2.dropWhile isJsonWs).isEmpty then
        some (decToRat neg ip fp fc (if eneg then -(ev : Int) else (ev : Int)))
      else none
    | t => if (t.dropWhile isJsonWs).isEmpty then some (decToRat neg ip fp fc 0) else none

/-- Fused model of lines 119 and 131 of the source: the test
s.replace(".", "", 1).isdigit() followed by float(s).  It returns the float
value exactly when the shape test passes (ASCII digits with at most one
dot; python float() always succeeds on such strings).  isdigit is modelled
over ASCII digits; the exotic unicode-digit corner of str.isdigit is not
exercised by the pipeline. -/
def shapeFloat (s : String) : Option ℚ :=
  let (a, rest) := s.data.span Char.isDigit
  let aval : Nat := (readDigits a).1
  match rest with
  | [] => if a.isEmpty then none else some (mkRat aval 1)
  | '.' :: b =>
    if b.all Char.isDigit ∧ ¬(a.isEmpty ∧ b.isEmpty) then
      some (decToRat false aval (readDigits b).1 b.length 0)
    else none
  | _ => none

/-- Model of python float(value) on a value decoded from JSON: bool is an
int subclass (True is 1.0), numbers pass through, strings go through the
float() grammar, list/dict/None raise (modelled as failure, which the caller
catches as a per-field skip). -/
def pyFloatOfJson : Json → Option ℚ
  | Json.num q => some q
  | Json.bool b => some (if b then 1 else 0)
  | Json.str s => pyFloat s
  | _ => none

/-- Model of entity_id.partition("."): text before the first dot and text
after it (an entity id without a dot yields an empty short name, as
partition returns empty tail parts). -/
def pyPartition (s : String) : String × String :=
  let (a, b) := s.data.span (fun c => c ≠ '.')
  match b with
  | [] => (s, "")
  | _ :: rest => (String.mk a, String.mk rest)

/-- Association-list lookup with python dict.get semantics (keys produced
by jsonParse are unique, so first match is the dict entry). -/
def lookupJson : List (String × Json) → String → Option Json
  | [], _ => none
  | (k, v) :: rest, key => if k = key then some v else lookupJson rest key

/-- Lookup of an InfluxDB point field by name. -/
def lookupField : List (String × FieldVal) → String → Option FieldVal
  | [], _ => none
  | (k, v) :: rest, key => if k = key then some v else lookupField rest key

/-- Lookup of one tag by name. -/
def lookupTag : List (String × String) → String → Option String
  | [], _ => none
  | (k, v) :: rest, key => if k = key then some v else lookupTag rest key

/-- Insert a field into the point field dict (Point.field uses dict
semantics: an existing name keeps its position and gets the new value). -/
def fieldsInsert : List (String × FieldVal) → String → FieldVal → List (String × FieldVal)
  | [], k, v => [(k, v)]
  | (k0, v0) :: rest, k, v =>
    if k0 = k then (k0, v) :: rest else (k0, v0) :: fieldsInsert rest k v

/- ---------------------------------------------------------------------
   The script itself: parse_attributes and batch_insert_to_influx
   (source lines 92-146).
   --------------------------------------------------------------------- -/

/-- Model of parse_attributes (lines 92-98): json.loads of the shared_attrs
blob; a None blob (TypeError) or malformed JSON (JSONDecodeError) degrades
to an empty dict with a logged warning.  The second component is the list
of log events the call produces. -/
def parse_attributes : Option String → Json × List LogEvent
  | none => (Json.obj [], [LogEvent.parseAttrsFailed])
  | some s =>
    match jsonParse s with
    | some j => (j, [])
    | none => (Json.obj [], [LogEvent.parseAttrsFailed])

/-- The sentinel test of line 104: state in ["unknown", "unavailable"].
Only a text state can compare equal to the sentinel strings. -/
def SqlVal.isSentinel : SqlVal → Bool
  | SqlVal.text s => s = "unknown" || s = "unavailable"
  | _ => false

/-- Lines 119-122: classify the state value.  A numeric state, or a text
state shaped like a pure decimal (at most one dot), becomes the float field
named value; everything else becomes the string field named state
(str(None) prints as None). -/
def stateField : SqlVal → String × FieldVal
  | SqlVal.num q => ("value", FieldVal.float q)
  | SqlVal.null => ("state", FieldVal.str "None")
  | SqlVal.text s =>
    match shapeFloat s with
    | some q => ("value", FieldVal.float q)
    | none => ("state", FieldVal.str s)

/-- Line 131: the numeric-looking test for an attribute value, fused with
the float() conversion exactly as in stateField.  bool is an int subclass
in python, so true and false are numeric. -/
def classifyNum : Json → Option ℚ
  | Json.num q => some q
  | Json.bool b => some (if b then 1 else 0)
  | Json.str s => shapeFloat s
  | _ => none

/-- The value is None test of line 126. -/
def Json.isNull : Json → Bool
  | Json.null => true
  | _ => false

/-- The attribute field loop of lines 125-136: deny-listed keys and None
values are skipped; temperature and humidity are forced through float()
(a failure skips just that field with a warning); otherwise numeric-looking
values become float fields and the rest become string fields.  Returns the
updated field dict and the per-field warnings in order. -/
def attrLoop : List (String × Json) → List (String × FieldVal) →
    List (String × FieldVal) × List LogEvent
  | [], fs => (fs, [])
  | (k, v) :: rest, fs =>
    if k = "id" || k = "id_str" || k = "update_available" || v.isNull then
      attrLoop rest fs
    else if k = "temperature" || k = "humidity" then
      match pyFloatOfJson v with
      | some q => attrLoop rest (fieldsInsert fs k (FieldVal.float q))
      | none =>
        let r := attrLoop rest fs
        (r.1, LogEvent.fieldSkipped k :: r.2)
    else
      match classifyNum v with
      | some q => attrLoop rest (fieldsInsert fs k (FieldVal.float q))
      | none => attrLoop rest (fieldsInsert fs k (FieldVal.str (pyStr v)))

/-- Outcome of processing one source row inside batch_insert_to_influx:
the row is skipped silently (sentinel state), or a point is built together
with the log events produced on the way, or the row raises an uncaught
exception (shared_attrs parsed to a JSON value that is not an object, so
the .get call on line 109 raises AttributeError, which no handler in the
script catches). -/
inductive RowOutcome
  | skip
  | emit (p : InfluxPoint) (evs : List LogEvent)
  | crash (evs : List LogEvent)
  deriving DecidableEq, Repr

/-- Lines 106-136 for one row once the attribute dict is available: resolve
tags, measurement, timestamp and fields.  Point.tag is called with source,
domain, entity_id, friendly_name in that order; the state field is added
first and then the attribute loop runs over the dict. -/
def mkRowPoint (row : SourceRow) (kvs : List (String × Json))
    (pevs : List LogEvent) : RowOutcome :=
  let pr := pyPartition row.entity_id
  let friendly := (lookupJson kvs "friendly_name").getD (Json.str pr.2)
  let uom := (lookupJson kvs "unit_of_measurement").getD (Json.str "default_measurement")
  let sf := stateField row.state
  let fl := attrLoop kvs [sf]
  RowOutcome.emit
    { measurement := pyStr uom
      tags := [("source", "HA"), ("domain", pr.1), ("entity_id", pr.2),
               ("friendly_name", pyStr friendly)]
      fields := fl.1
      time := row.last_updated_ts }
    (pevs ++ fl.2)

/-- The per-row body of batch_insert_to_influx (lines 102-136): sentinel
states are skipped with no trace, otherwise the attributes are parsed and
the point is assembled.  The float(last_updated_ts) conversion cannot fail
in the model because rows carry numeric timestamps (the Home Assistant
schema), so the except ValueError arm of line 145 has no reachable
counterpart here. -/
def processRow (row : SourceRow) : RowOutcome :=
  if SqlVal.isSentinel row.state then RowOutcome.skip
  else
    match (parse_attributes row.shared_attrs).1 with
    | Json.obj kvs => mkRowPoint row kvs (parse_attributes row.shared_attrs).2
    | _ => RowOutcome.crash (parse_attributes row.shared_attrs).2

/-- Observable result of one batch_insert_to_influx call: the write calls
issued to the InfluxDB write api in order (one call per record argument),
the log events, and whether an uncaught exception escaped. -/
structure BatchResult where
  writes : List InfluxPoint
  events : List LogEvent
  crashed : Bool
  deriving DecidableEq, Repr

/-- Model of batch_insert_to_influx (lines 100-146).  writeOk is the
environment: whether the InfluxDB write of a given point succeeds; a failed
write is logged (line 143) and the loop continues.  Note the write call on
line 140 sits inside the per-row loop: every built point is submitted in
its own write call. -/
def batch_insert_to_influx (writeOk : InfluxPoint → Bool) :
    List SourceRow → BatchResult
  | [] => { writes := [], events := [], crashed := false }
  | row :: rest =>
    match processRow row with
    | RowOutcome.skip => batch_insert_to_influx writeOk rest
    | RowOutcome.crash evs => { writes := [], events := evs, crashed := true }
    | RowOutcome.emit p evs =>
      let r := batch_insert_to_influx writeOk rest
      { writes := p :: r.writes
        events := evs ++ (if writeOk p then [] else [LogEvent.writeError]) ++ r.events
        crashed := r.crashed }

/-- The points batch_insert_to_influx builds from a row list (each of these
receives exactly one write call). -/
def emittedPoints : List SourceRow → List InfluxPoint
  | [] => []
  | row :: rest =>
    match processRow row with
    | RowOutcome.skip => emittedPoints rest
    | RowOutcome.crash _ => []
    | RowOutcome.emit p _ => p :: emittedPoints rest

/-- The attribute dict of a row, when the blob parses to a JSON object
(the only shape under which the script reaches the point-building code). -/
def attrsOf (row : SourceRow) : Option (List (String × Json)) :=
  match (parse_attributes row.shared_attrs).1 with
  | Json.obj kvs => some kvs
  | _ => none

/- ---------------------------------------------------------------------
   Watermark resolution, query planning and the main fetch loop
   (source lines 54-90 and 148-173).
   --------------------------------------------------------------------- -/

/-- Gregorian date from a count of days since 1970-01-01 (the standard
era-based civil-from-days computation; models the calendar arithmetic
inside python datetime). -/
def civilFromDays (z0 : Int) : Int × Int × Int :=
  let z := z0 + 719468
  let era := Int.fdiv z 146097
  let doe := z - era * 146097
  let yoe := Int.fdiv (doe - Int.fdiv doe 1460 + Int.fdiv doe 36524 - Int.fdiv doe 146096) 365
  let y := yoe + era * 400
  let doy := doe - (365 * yoe + Int.fdiv yoe 4 - Int.fdiv yoe 100)
  let mp := Int.fdiv (5 * doy + 2) 153
  let d := doy - Int.fdiv (153 * mp + 2) 5 + 1
  let m := if mp < 10 then mp + 3 else mp - 9
  (if m ≤ 2 then y + 1 else y, m, d)

/-- Two-digit zero-padded decimal. -/
def pad2 (n : Int) : String :=
  if n < 10 then "0" ++ toString n else toString n

/-- Four-digit zero-padded decimal. -/
def pad4 (n : Int) : String :=
  if n < 10 then "000" ++ toString n
  else if n < 100 then "00" ++ toString n
  else if n < 1000 then "0" ++ toString n
  else toString n

/-- The isoformat() string of a UTC instant given in whole epoch seconds,
as returned by the influxdb client record time (an aware UTC datetime, so
the suffix is +00:00).  Sub-second watermarks are not exercised by the
claims, so the instant is taken integral. -/
def isoOfEpoch (t : Int) : String :=
  let days := Int.fdiv t 86400
  let sod := (Int.fmod t 86400).toNat
  let c := civilFromDays days
  pad4 c.1 ++ "-" ++ pad2 c.2.1 ++ "-" ++ pad2 c.2.2 ++ "T" ++
    pad2 (sod / 3600) ++ ":" ++ pad2 (sod % 3600 / 60) ++ ":" ++ pad2 (sod % 60) ++
    "+00:00"

/-- What the InfluxDB watermark query yields: an exception, or the list of
record times (epoch seconds) of the returned tables. -/
inductive InfluxQueryResult
  | failure
  | tables (times : List Int)

/-- Model of get_oldest_influx_timestamp (lines 54-69): on success with a
nonempty result, the isoformat of the first record time; an empty result
gives None; any exception is logged and gives None. -/
def get_oldest_influx_timestamp : InfluxQueryResult → Option String × List LogEvent
  | InfluxQueryResult.failure => (none, [LogEvent.watermarkQueryError])
  | InfluxQueryResult.tables [] => (none, [])
  | InfluxQueryResult.tables (t :: _) => (some (isoOfEpoch t), [])

/-- All-digit test. -/
def allDigits (cs : List Char) : Bool := cs.all Char.isDigit

/-- Shape of the date part YYYY-MM-DD. -/
def dateOk : List Char → Bool
  | [a, b, c, d, h1, e, f, h2, g, h] =>
    allDigits [a, b, c, d, e, f, g, h] && h1 = '-' && h2 = '-'
  | _ => false

/-- Shape of the time part HH:MM:SS. -/
def timeOk : List Char → Bool
  | [a, b, c1, c, d, c2, e, f] =>
    allDigits [a, b, c, d, e, f] && c1 = ':' && c2 = ':'
  | _ => false

/-- A valid tail after YYYY-MM-DDTHH:MM:SS for fromisoformat: nothing, a
UTC offset, or fractional seconds followed by an optional offset. -/
def offsetOk : List Char → Bool
  | [] => true
  | [s, h1, h2, c, m1, m2] =>
    (s = '+' || s = '-') && allDigits [h1, h2, m1, m2] && c = ':'
  | _ => false

/-- Suffix check including fractional seconds. -/
def isoSuffixOk : List Char → Bool
  | [] => true
  | '.' :: t =>
    let r := readDigits t
    decide (0 < r.2.1) && offsetOk r.2.2
  | t => offsetOk t

/-- Model of format_timestamp (lines 71-78): strip Z characters, parse the
ISO timestamp, and reformat it as "YYYY-MM-DD HH:MM:SS" for use in the SQL
query.  A malformed timestamp makes the script exit(1), modelled as none.
The model validates the full date-time shape that datetime.fromisoformat
accepts for the strings this pipeline produces. -/
def format_timestamp (s : String) : Option String :=
  let cs := s.data.filter (fun c => c ≠ 'Z')
  let date := cs.take 10
  let sepc := (cs.drop 10).take 1
  let time := (cs.drop 11).take 8
  let rest := cs.drop 19
  if dateOk date && (sepc = ['T'] || sepc = [' ']) && timeOk time && isoSuffixOk rest
  then some (String.mk (date ++ ' ' :: time))
  else none

/-- The extraction query built by build_sqlite_query (lines 80-90): the
fixed SELECT with LEFT JOIN and JOIN, ordered by s.last_updated_ts ASC,
with an optional bound WHERE s.last_updated_ts < '<timestamp text>'.
Only the bound varies, so the descriptor records it; the text literal is
kept verbatim because its comparison against the numeric column follows
sqlite semantics, modelled below. -/
structure SqliteQuery where
  bound : Option String
  deriving DecidableEq, Repr

/-- Model of build_sqlite_query: include the WHERE bound exactly when a
formatted timestamp is given. -/
def build_sqlite_query (formatted_timestamp : Option String) : SqliteQuery :=
  { bound := formatted_timestamp }

/-- Sqlite numeric affinity applied to a text operand: the text converts to
a number exactly when it is in its entirety a well-formed numeric literal
(optional sign, decimal digits, optional fraction and exponent, optional
surrounding whitespace); otherwise it keeps the TEXT storage class. -/
def sqliteTextToNum (s : String) : Option ℚ := pyFloat s

/-- The comparison s.last_updated_ts < '<text>' for a numeric column value:
under numeric affinity the text operand is converted if it looks like a
number and the comparison is numeric; otherwise the operands have different
storage classes and sqlite orders every INTEGER/REAL value before every
TEXT value, so the comparison is true for every row. -/
def sqliteNumLtText (q : ℚ) (t : String) : Bool :=
  match sqliteTextToNum t with
  | some v => decide (q < v)
  | none => true

/-- WHERE clause of the extraction query applied to one row. -/
def rowPassesBound (bound : Option String) (r : SourceRow) : Bool :=
  match bound with
  | none => true
  | some b => sqliteNumLtText r.last_updated_ts b

/-- Insert a row into a list sorted by ascending update time. -/
def insertByTs (r : SourceRow) : List SourceRow → List SourceRow
  | [] => [r]
  | x :: xs =>
    if r.last_updated_ts < x.last_updated_ts then r :: x :: xs
    else x :: insertByTs r xs

/-- ORDER BY s.last_updated_ts ASC.  The query names no secondary sort key,
so the relative order of rows with equal update times is unspecified by the
SQL; the model fixes one such order. -/
def sortByTs (rows : List SourceRow) : List SourceRow := rows.foldr insertByTs []

/-- Execution of the extraction query against the source table: keep the
rows passing the bound, ordered by ascending update time. -/
def runQuery (q : SqliteQuery) (rows : List SourceRow) : List SourceRow :=
  sortByTs (rows.filter (rowPassesBound q.bound))

/-- Lines 153-156 of main: resolve the watermark and format it; the outer
some means the script did not exit, and the inner option is the formatted
bound handed to build_sqlite_query (None means full migration). -/
def main_formatted (qres : InfluxQueryResult) : Option (Option String) :=
  match (get_oldest_influx_timestamp qres).1 with
  | none => some none
  | some iso =>
    match format_timestamp iso with
    | none => none
    | some f => some (some f)

/-- Model of cursor.fetchall() (line 163): return every remaining row of
the result set and leave the cursor exhausted. -/
def cur_fetchall (c : List SourceRow) : List SourceRow × List SourceRow := (c, [])

/-- The batches the while-True / fetchmany(BATCH_SIZE) loop of lines
166-171 would read from a cursor holding the given remaining rows: chunks
of size n until a fetch returns no rows. -/
def chunksGo (n : Nat) : List SourceRow → List SourceRow → Nat →
    List (List SourceRow)
  | [], acc, _ => if acc.isEmpty then [] else [acc.reverse]
  | x :: xs, acc, k =>
    if k ≤ 1 then (x :: acc).reverse :: chunksGo n xs [] n
    else chunksGo n xs (x :: acc) (k - 1)

/-- The fetchmany loop: with a zero batch size the first fetch is already
empty, otherwise the cursor is consumed in chunks of n. -/
def fetch_loop (n : Nat) (c : List SourceRow) : List (List SourceRow) :=
  if n = 0 then [] else chunksGo n c [] n

/-- Model of the row-processing part of main (lines 153-171): resolve and
format the watermark, build and run the extraction query, call fetchall to
count rows for the log line, then run the fetchmany loop on what remains of
the cursor and return the list of batches handed to batch_insert_to_influx.
none models a process exit inside format_timestamp. -/
def main_process (batch_size : Nat) (qres : InfluxQueryResult)
    (source_rows : List SourceRow) : Option (List (List SourceRow)) :=
  match main_formatted qres with
  | none => none
  | some fmt =>
    let results := runQuery (build_sqlite_query fmt) source_rows
    let fa := cur_fetchall results
    some (fetch_loop batch_size fa.2)

/- ---------------------------------------------------------------------
   Helper lemmas.
   --------------------------------------------------------------------- -/

/-- The blob inputs on which json.loads raises: a None blob (TypeError) or
text the parser rejects (JSONDecodeError). -/
def jsonLoadsFails : Option String → Prop
  | none => True
  | some s => jsonParse s = none

theorem insertByTs_length (r : SourceRow) (l : List SourceRow) :
    (insertByTs r l).length = l.length + 1 := by
  induction l with
  | nil => rfl
  | cons x xs ih =>
    unfold insertByTs
    split
    · simp
    · simp [ih]

theorem sortByTs_length (l : List SourceRow) : (sortByTs l).length = l.length := by
  induction l with
  | nil => rfl
  | cons x xs ih =>
    show (insertByTs x (sortByTs xs)).length = xs.length + 1
    rw [insertByTs_length, ih]

theorem runQuery_none_length (rows : List SourceRow) :
    (runQuery (build_sqlite_query none) rows).length = rows.length := by
  unfold runQuery
  rw [sortByTs_length]
  have hf : rows.filter (rowPassesBound (build_sqlite_query none).bound) = rows :=
    List.filter_eq_self.mpr (fun a _ => rfl)
  rw [hf]

theorem processRow_obj (row : SourceRow) (kvs : List (String × Json))
    (h1 : SqlVal.isSentinel row.state = false)
    (h2 : (parse_attributes row.shared_attrs).1 = Json.obj kvs) :
    processRow row = mkRowPoint row kvs (parse_attributes row.shared_attrs).2 := by
  unfold processRow
  rw [h1]
  simp only [Bool.false_eq_true, if_false, h2]

theorem lookupField_fieldsInsert_self (fs : List (String × FieldVal)) (k : String)
    (v : FieldVal) : lookupField (fieldsInsert fs k v) k = some v := by
  induction fs with
  | nil => simp [fieldsInsert, lookupField]
  | cons kv rest ih =>
    obtain ⟨k0, v0⟩ := kv
    by_cases h : k0 = k
    · simp [fieldsInsert, lookupField, h]
    · simp [fieldsInsert, lookupField, h, ih]

theorem lookupField_fieldsInsert_ne (fs : List (String × FieldVal)) (k0 : String)
    (v0 : FieldVal) (k : String) (h : k0 ≠ k) :
    lookupField (fieldsInsert fs k0 v0) k = lookupField fs k := by
  induction fs with
  | nil => simp [fieldsInsert, lookupField, h]
  | cons kv rest ih =>
    obtain ⟨k1, v1⟩ := kv
    by_cases h1 : k1 = k0
    · simp [fieldsInsert, lookupField, h1, h]
    · simp only [fieldsInsert, h1, if_false]
      by_cases h2 : k1 = k
      · simp [lookupField, h2]
      · simp [lookupField, h2, ih]

theorem lookupField_single_ne (sf : String × FieldVal) (k : String) (h : sf.1 ≠ k) :
    lookupField [sf] k = none := by
  obtain ⟨a, b⟩ := sf
  simp only [lookupField]
  rw [if_neg h]

/-- A field name already present in the dict stays present through the
attribute loop. -/
theorem attrLoop_isSome (kvs : List (String × Json)) (fs : List (String × FieldVal))
    (k : String) (h : (lookupField fs k).isSome = true) :
    (lookupField (attrLoop kvs fs).1 k).isSome = true := by
  induction kvs generalizing fs with
  | nil => exact h
  | cons hd tl ih =>
    obtain ⟨k1, v1⟩ := hd
    have hins : ∀ fv : FieldVal,
        (lookupField (fieldsInsert fs k1 fv) k).isSome = true := by
      intro fv
      by_cases hk : k1 = k
      · subst hk; rw [lookupField_fieldsInsert_self]; rfl
      · rw [lookupField_fieldsInsert_ne _ _ _ _ hk]; exact h
    by_cases hs : (k1 = "id" || k1 = "id_str" || k1 = "update_available" || v1.isNull) = true
    · simp only [attrLoop, hs, if_true]
      exact ih fs h
    · simp only [attrLoop, hs, Bool.false_eq_true, if_false]
      by_cases ht : (k1 = "temperature" || k1 = "humidity") = true
      · simp only [ht, if_true]
        cases hf : pyFloatOfJson v1 with
        | some q => exact ih _ (hins _)
        | none => exact ih fs h
      · simp only [ht, Bool.false_eq_true, if_false]
        cases hc : classifyNum v1 with
        | some q => exact ih _ (hins _)
        | none => exact ih _ (hins _)

/-- If every occurrence of a key in the dict is filtered by line 126 of the
source (deny-listed key or None value), the attribute loop leaves that
field name untouched. -/
theorem attrLoop_skipped (k : String) (kvs : List (String × Json))
    (fs : List (String × FieldVal))
    (h : ∀ v', (k, v') ∈ kvs →
      (k = "id" || k = "id_str" || k = "update_available" || Json.isNull v') = true) :
    lookupField (attrLoop kvs fs).1 k = lookupField fs k := by
  induction kvs generalizing fs with
  | nil => rfl
  | cons hd tl ih =>
    obtain ⟨k1, v1⟩ := hd
    have htail : ∀ v', (k, v') ∈ tl →
        (k = "id" || k = "id_str" || k = "update_available" || Json.isNull v') = true :=
      fun v' hv => h v' (List.mem_cons_of_mem _ hv)
    by_cases hs : (k1 = "id" || k1 = "id_str" || k1 = "update_available" || v1.isNull) = true
    · simp only [attrLoop, hs, if_true]
      exact ih fs htail
    · have hk1 : k1 ≠ k := by
        intro e
        subst e
        exact hs (h v1 (List.mem_cons_self _ _))
      simp only [attrLoop, hs, Bool.false_eq_true, if_false]
      by_cases ht : (k1 = "temperature" || k1 = "humidity") = true
      · simp only [ht, if_true]
        cases hf : pyFloatOfJson v1 with
        | some q => rw [ih _ htail, lookupField_fieldsInsert_ne _ _ _ _ hk1]
        | none => exact ih fs htail
      · simp only [ht, Bool.false_eq_true, if_false]
        cases hc : classifyNum v1 with
        | some q => rw [ih _ htail, lookupField_fieldsInsert_ne _ _ _ _ hk1]
        | none => rw [ih _ htail, lookupField_fieldsInsert_ne _ _ _ _ hk1]

/-- Every dict entry that is not filtered by line 126 is considered for
emission: its key ends up as a field of the point, or a per-field skip
warning for it is logged. -/
theorem attrLoop_considered (k' : String) (v' : Json) (kvs : List (String × Json))
    (fs : List (String × FieldVal))
    (hmem : (k', v') ∈ kvs)
    (hns : (k' = "id" || k' = "id_str" || k' = "update_available" || Json.isNull v') = false) :
    (lookupField (attrLoop kvs fs).1 k').isSome = true ∨
      LogEvent.fieldSkipped k' ∈ (attrLoop kvs fs).2 := by
  induction kvs generalizing fs with
  | nil => cases hmem
  | cons hd tl ih =>
    obtain ⟨k1, v1⟩ := hd
    rcases List.mem_cons.mp hmem with heq | htl
    · cases heq
      simp only [attrLoop, hns, Bool.false_eq_true, if_false]
      by_cases ht : (k' = "temperature" || k' = "humidity") = true
      · simp only [ht, if_true]
        cases hf : pyFloatOfJson v' with
        | some q =>
          exact Or.inl (attrLoop_isSome _ _ _ (by rw [lookupField_fieldsInsert_self]; rfl))
        | none => exact Or.inr (List.mem_cons_self _ _)
      · simp only [ht, Bool.false_eq_true, if_false]
        cases hc : classifyNum v' with
        | some q =>
          exact Or.inl (attrLoop_isSome _ _ _ (by rw [lookupField_fieldsInsert_self]; rfl))
        | none =>
          exact Or.inl (attrLoop_isSome _ _ _ (by rw [lookupField_fieldsInsert_self]; rfl))
    · by_cases hs : (k1 = "id" || k1 = "id_str" || k1 = "update_available" || v1.isNull) = true
      · simp only [attrLoop, hs, if_true]
        exact ih _ htl
      · simp only [attrLoop, hs, Bool.false_eq_true, if_false]
        by_cases ht : (k1 = "temperature" || k1 = "humidity") = true
        · simp only [ht, if_true]
          cases hf : pyFloatOfJson v1 with
          | some q => exact ih _ htl
          | none =>
            rcases ih fs htl with hh | hh
            · exact Or.inl hh
            · exact Or.inr (List.mem_cons_of_mem _ hh)
        · simp only [ht, Bool.false_eq_true, if_false]
          cases hc : classifyNum v1 with
          | some q => exact ih _ htl
          | none => exact ih _ htl

/-- In a dict with distinct keys (the shape json.loads always produces),
one key carries one value. -/
theorem assoc_nodup_val_eq (kvs : List (String × Json)) (k : String) (a b : Json)
    (h : (kvs.map Prod.fst).Nodup) (ha : (k, a) ∈ kvs) (hb : (k, b) ∈ kvs) : a = b := by
  induction kvs with
  | nil => cases ha
  | cons hd tl ih =>
    obtain ⟨k1, v1⟩ := hd
    simp only [List.map_cons, List.nodup_cons] at h
    rcases List.mem_cons.mp ha with hea | hta
    · cases hea
      rcases List.mem_cons.mp hb with heb | htb
      · cases heb; rfl
      · exact absurd (List.mem_map_of_mem Prod.fst htb) h.1
    · rcases List.mem_cons.mp hb with heb | htb
      · cases heb
        exact absurd (List.mem_map_of_mem Prod.fst hta) h.1
      · exact ih h.2 hta htb

/-- The state is always emitted under one of the two fixed field names:
value (float) or state (string). -/
theorem stateField_name (v : SqlVal) :
    (stateField v).1 = "value" ∨ (stateField v).1 = "state" := by
  cases v with
  | null => exact Or.inr rfl
  | num q => exact Or.inl rfl
  | text s =>
    cases h : shapeFloat s with
    | some q => exact Or.inl (by simp [stateField, h])
    | none => exact Or.inr (by simp [stateField, h])

/- ---------------------------------------------------------------------
   Claim theorems.
   --------------------------------------------------------------------- -/

/-- Two rows of one batch whose shared attribute key mode carries a
numeric-looking text in the first row and a plain word in the second. -/
def c1row1 : SourceRow :=
  ⟨SqlVal.text "on", "light.a", 1, some "\x7b\"mode\": \"5\"\x7d"⟩

/-- Companion row for the type-conflict run. -/
def c1row2 : SourceRow :=
  ⟨SqlVal.text "off", "light.a", 2, some "\x7b\"mode\": \"auto\"\x7d"⟩

/-- Claim C1 (code bug): two DataPoints produced by one
batch_insert_to_influx run, both for the same measurement, carry the field
named mode as a float (5.0) in the first point and as a string ("auto") in
the second, because lines 131-134 of the source pick the field type from
each row value independently.  This violates the one-type-per-field-name
invariant the claim states. -/
theorem c1_same_field_name_two_types :
    ((batch_insert_to_influx (fun _ => true) [c1row1, c1row2]).writes.map
      (fun p => lookupField p.fields "mode")) =
        [some (FieldVal.float 5), some (FieldVal.str "auto")] ∧
    ((batch_insert_to_influx (fun _ => true) [c1row1, c1row2]).writes.map
      InfluxPoint.measurement) = ["default_measurement", "default_measurement"] := by
  decide

/-- A source row lying after the watermark instant. -/
def c2rowLate : SourceRow := ⟨SqlVal.text "1", "sensor.x", 1800000000, none⟩

/-- Claim C2 (code bug): with no watermark the query carries no bound, but
with the watermark at epoch 1700000000 (2023-11-14T22:13:20Z) the WHERE
clause compares the numeric last_updated_ts column against the text literal
2023-11-14 22:13:20, which is not a numeric literal; under sqlite ordering
every numeric value sorts before every text value, so a row at epoch
1800000000 — later than the watermark — is still returned. -/
theorem c2_watermark_bound_not_enforced :
    (build_sqlite_query none).bound = none ∧
    get_oldest_influx_timestamp (InfluxQueryResult.tables [1700000000]) =
      (some "2023-11-14T22:13:20+00:00", []) ∧
    format_timestamp "2023-11-14T22:13:20+00:00" = some "2023-11-14 22:13:20" ∧
    runQuery (build_sqlite_query (some "2023-11-14 22:13:20")) [c2rowLate] = [c2rowLate] ∧
    ¬ (c2rowLate.last_updated_ts < 1700000000) := by
  decide

/-- The unavailable-state scenario record of the claim. -/
def c3row : SourceRow := ⟨SqlVal.text "unavailable", "sensor.x", 0, none⟩

/-- Claim C3 counterexample: processing the scenario record with
state unavailable produces no write call AND no log event - the complete
observable output of batch_insert_to_influx is empty, so no skip counter
is incremented and no reason is recorded anywhere (the script holds no
counters at all: line 105 is a bare continue). -/
theorem c3_counterexample_skip_leaves_no_trace :
    batch_insert_to_influx (fun _ => true) [c3row] =
      { writes := [], events := [], crashed := false } := by
  decide

/-- Claim C3 as amended: a record whose state is a sentinel value
contributes nothing at all to the output of batch_insert_to_influx - no
DataPoint, no write call, and also no counter or log entry (the skip is
silent). -/
theorem c3_sentinel_rows_skipped_silently (w : InfluxPoint → Bool) (r : SourceRow)
    (rows : List SourceRow) (h : SqlVal.isSentinel r.state = true) :
    batch_insert_to_influx w (r :: rows) = batch_insert_to_influx w rows := by
  simp [batch_insert_to_influx, processRow, h]

/-- Witness for the amended C3 theorem at the scenario record. -/
theorem c3_sentinel_rows_skipped_silently_witness :
    SqlVal.isSentinel c3row.state = true ∧
    batch_insert_to_influx (fun _ => true) [c3row] =
      batch_insert_to_influx (fun _ => true) [] :=
  ⟨by decide, c3_sentinel_rows_skipped_silently (fun _ => true) c3row [] (by decide)⟩

/-- Claim C4: when the attribute blob is NULL or rejected by the JSON
decoder, parse_attributes returns the empty dict after logging a warning,
and the row (if not a sentinel) still yields a point whose measurement is
the placeholder default_measurement and whose friendly_name tag defaults to
the entity short name.  The emit outcome shows the run continues. -/
theorem c4_parse_failure_empty_attrs_defaults (st : SqlVal) (eid : String) (ts : ℚ)
    (blob : Option String)
    (h1 : jsonLoadsFails blob) (h2 : SqlVal.isSentinel st = false) :
    parse_attributes blob = (Json.obj [], [LogEvent.parseAttrsFailed]) ∧
    ∃ p, processRow ⟨st, eid, ts, blob⟩ = RowOutcome.emit p [LogEvent.parseAttrsFailed] ∧
      p.measurement = "default_measurement" ∧
      lookupTag p.tags "friendly_name" = some (pyPartition eid).2 := by
  have hp : parse_attributes blob = (Json.obj [], [LogEvent.parseAttrsFailed]) := by
    cases blob with
    | none => rfl
    | some s =>
      have h1a : jsonParse s = none := h1
      simp [parse_attributes, h1a]
  have hrow : processRow ⟨st, eid, ts, blob⟩ =
      mkRowPoint ⟨st, eid, ts, blob⟩ [] (parse_attributes blob).2 := by
    exact processRow_obj _ _ h2
      (by rw [show (⟨st, eid, ts, blob⟩ : SourceRow).shared_attrs = blob from rfl, hp])
  rw [hp] at hrow
  exact ⟨hp, ⟨_, hrow, rfl, rfl⟩⟩

/-- Witness for C4 at the scenario blob "not json". -/
theorem c4_parse_failure_empty_attrs_defaults_witness :
    parse_attributes (some "not json") = (Json.obj [], [LogEvent.parseAttrsFailed]) ∧
    ∃ p, processRow ⟨SqlVal.text "on", "sensor.temp1", 0, some "not json"⟩ =
        RowOutcome.emit p [LogEvent.parseAttrsFailed] ∧
      p.measurement = "default_measurement" ∧
      lookupTag p.tags "friendly_name" = some (pyPartition "sensor.temp1").2 :=
  c4_parse_failure_empty_attrs_defaults (SqlVal.text "on") "sensor.temp1" 0
    (some "not json") rfl (by decide)

/-- The scenario record of claim C5. -/
def c5row : SourceRow :=
  ⟨SqlVal.text "21.5", "sensor.temp1", 1700000000,
   some "\x7b\"friendly_name\":\"Temp 1\",\"unit_of_measurement\":\"°C\"\x7d"⟩

/-- Claim C5: the scenario record yields exactly one DataPoint (one write
call, no warnings) with measurement °C, tags domain=sensor, entity_id=temp1,
friendly_name=Temp 1, a numeric value field holding 43/2 = 21.5, and
timestamp epoch 1700000000. -/
theorem c5_scenario_point :
    ((batch_insert_to_influx (fun _ => true) [c5row]).writes.map
      InfluxPoint.measurement = ["°C"] ∧
    (batch_insert_to_influx (fun _ => true) [c5row]).writes.map
      (fun p => lookupTag p.tags "domain") = [some "sensor"] ∧
    (batch_insert_to_influx (fun _ => true) [c5row]).writes.map
      (fun p => lookupTag p.tags "entity_id") = [some "temp1"] ∧
    (batch_insert_to_influx (fun _ => true) [c5row]).writes.map
      (fun p => lookupTag p.tags "friendly_name") = [some "Temp 1"] ∧
    (batch_insert_to_influx (fun _ => true) [c5row]).writes.map
      (fun p => lookupField p.fields "value") = [some (FieldVal.float (mkRat 43 2))] ∧
    (batch_insert_to_influx (fun _ => true) [c5row]).writes.map
      InfluxPoint.time = [1700000000] ∧
    (batch_insert_to_influx (fun _ => true) [c5row]).events = []) ∧
    (mkRat 43 2 : ℚ) = 21.5 := by
  constructor
  · decide
  · norm_num [mkRat, Rat.normalize]

/-- Claim C6: a failed watermark query is logged and treated as absent; the
script does not abort, the extraction query gets no upper bound, and the
query over any source table returns every row (a full migration). -/
theorem c6_watermark_failure_fail_open (rows : List SourceRow) :
    get_oldest_influx_timestamp InfluxQueryResult.failure =
      (none, [LogEvent.watermarkQueryError]) ∧
    main_formatted InfluxQueryResult.failure = some none ∧
    (build_sqlite_query none).bound = none ∧
    (runQuery (build_sqlite_query none) rows).length = rows.length :=
  ⟨rfl, rfl, rfl, runQuery_none_length rows⟩

/-- First row of the two-point batch used against claim C7. -/
def c7row1 : SourceRow := ⟨SqlVal.text "1", "sensor.a", 1, none⟩

/-- Second row of the two-point batch used against claim C7. -/
def c7row2 : SourceRow := ⟨SqlVal.text "2", "sensor.b", 2, none⟩

/-- Claim C7 counterexample: a batch of two rows that both yield points is
submitted through two write calls (the write on line 140 sits inside the
per-row loop), not through the single whole-batch write the claim states. -/
theorem c7_counterexample_one_write_per_point :
    (batch_insert_to_influx (fun _ => true) [c7row1, c7row2]).writes.length = 2 ∧
    ¬ ((batch_insert_to_influx (fun _ => true) [c7row1, c7row2]).writes.length = 1) := by
  decide

/-- Claim C7 as amended: every point the batch builds receives its own
write call; which writes fail has no influence on the submitted points
(the run continues past failures), and every failed write leaves a logged
error event. -/
theorem c7_per_point_write_and_continue (w : InfluxPoint → Bool)
    (rows : List SourceRow) :
    (batch_insert_to_influx w rows).writes = emittedPoints rows ∧
    (∀ p, p ∈ (batch_insert_to_influx w rows).writes → w p = false →
      LogEvent.writeError ∈ (batch_insert_to_influx w rows).events) := by
  induction rows with
  | nil =>
    refine ⟨rfl, ?_⟩
    intro p hp
    simp [batch_insert_to_influx] at hp
  | cons r rs ih =>
    cases hpr : processRow r with
    | skip =>
      constructor
      · simp [batch_insert_to_influx, emittedPoints, hpr, ih.1]
      · intro p hp hw
        have hm := ih.2 p
        simp [batch_insert_to_influx, hpr] at hp ⊢
        exact hm hp hw
    | crash evs =>
      constructor
      · simp [batch_insert_to_influx, emittedPoints, hpr]
      · intro p hp hw
        simp [batch_insert_to_influx, hpr] at hp
    | emit q evs =>
      constructor
      · simp [batch_insert_to_influx, emittedPoints, hpr, ih.1]
      · intro p hp hw
        simp only [batch_insert_to_influx, hpr] at hp ⊢
        simp only [List.mem_cons] at hp
        rcases hp with hpq | hp
        · subst hpq
          rw [hw]
          simp
        · have hm := ih.2 p hp hw
          simp [hm]

/-- Witness for the amended C7 theorem: a one-row batch against a store
that rejects every write. -/
theorem c7_per_point_write_and_continue_witness :
    (batch_insert_to_influx (fun _ => false) [c7row1]).writes = emittedPoints [c7row1] ∧
    (∀ p, p ∈ (batch_insert_to_influx (fun _ => false) [c7row1]).writes →
      (fun _ : InfluxPoint => false) p = false →
      LogEvent.writeError ∈ (batch_insert_to_influx (fun _ => false) [c7row1]).events) :=
  c7_per_point_write_and_continue (fun _ => false) [c7row1]

/-- Rows for the claim C8 batching run (three rows, batch size two). -/
def c8row1 : SourceRow := ⟨SqlVal.text "1", "sensor.x", 1, none⟩

/-- Second row for the C8 run. -/
def c8row2 : SourceRow := ⟨SqlVal.text "2", "sensor.x", 2, none⟩

/-- Third row for the C8 run. -/
def c8row3 : SourceRow := ⟨SqlVal.text "3", "sensor.x", 3, none⟩

/-- Claim C8 (code bug): with three matching source rows and batch size
two, main processes zero batches - the fetchall() on line 163 (used only to
log a row count) consumes the entire cursor, so the subsequent fetchmany
loop finds nothing and ends immediately.  The third conjunct shows what the
fetchmany loop would have delivered from an unconsumed cursor: the expected
ceil(3/2) = 2 batches covering all rows in order. -/
theorem c8_fetchall_leaves_nothing_to_fetch :
    main_process 2 (InfluxQueryResult.tables []) [c8row1, c8row2, c8row3] = some [] ∧
    (runQuery (build_sqlite_query none) [c8row1, c8row2, c8row3]).length = 3 ∧
    fetch_loop 2 (runQuery (build_sqlite_query none) [c8row1, c8row2, c8row3]) =
      [[c8row1, c8row2], [c8row3]] := by
  decide

/-- The record whose unit_of_measurement attribute is the empty string. -/
def c9row : SourceRow :=
  ⟨SqlVal.text "1", "sensor.x", 0, some "\x7b\"unit_of_measurement\": \"\"\x7d"⟩

/-- Claim C9 counterexample: a record carrying unit_of_measurement = ""
gets measurement "" - not the placeholder - because dict.get on line 110
only substitutes the default for an absent key, never for an empty value. -/
theorem c9_counterexample_empty_unit_measurement :
    attrsOf c9row = some [("unit_of_measurement", Json.str "")] ∧
    (batch_insert_to_influx (fun _ => true) [c9row]).writes.map
      InfluxPoint.measurement = [""] ∧
    ("" : String) ≠ "default_measurement" := by
  refine ⟨rfl, by decide, by decide⟩

/-- Claim C9 as amended: the measurement equals the unit_of_measurement
attribute whenever the key is present with a string value - including the
empty string - and equals the placeholder default_measurement only when the
key is absent. -/
theorem c9_measurement_resolution (st : SqlVal) (eid : String) (ts : ℚ)
    (blob : Option String) (kvs : List (String × Json))
    (h1 : SqlVal.isSentinel st = false)
    (h2 : (parse_attributes blob).1 = Json.obj kvs) :
    ∃ p evs, processRow ⟨st, eid, ts, blob⟩ = RowOutcome.emit p evs ∧
      (lookupJson kvs "unit_of_measurement" = none →
        p.measurement = "default_measurement") ∧
      (∀ u, lookupJson kvs "unit_of_measurement" = some (Json.str u) →
        p.measurement = u) := by
  refine ⟨_, _, processRow_obj ⟨st, eid, ts, blob⟩ kvs h1 h2, ?_, ?_⟩
  · intro h
    simp only [mkRowPoint, h, Option.getD_none]
    rfl
  · intro u h
    simp only [mkRowPoint, h, Option.getD_some]
    rfl

/-- Witness for the amended C9 theorem at the empty-string record. -/
theorem c9_measurement_resolution_witness :
    ∃ p evs, processRow ⟨SqlVal.text "1", "sensor.x", 0,
        some "\x7b\"unit_of_measurement\": \"\"\x7d"⟩ = RowOutcome.emit p evs ∧
      (lookupJson [("unit_of_measurement", Json.str "")] "unit_of_measurement" = none →
        p.measurement = "default_measurement") ∧
      (∀ u, lookupJson [("unit_of_measurement", Json.str "")] "unit_of_measurement" =
          some (Json.str u) → p.measurement = u) :=
  c9_measurement_resolution (SqlVal.text "1") "sensor.x" 0
    (some "\x7b\"unit_of_measurement\": \"\"\x7d")
    [("unit_of_measurement", Json.str "")] (by decide) rfl

/-- The record whose attribute dict holds a null entry under the key value,
which collides with the state field name. -/
def c10row : SourceRow := ⟨SqlVal.text "5", "sensor.a", 0, some "\x7b\"value\": null\x7d"⟩

/-- Claim C10 counterexample: the attribute entry value = null is skipped by
the loop, yet a field named value IS present on the resulting DataPoint,
because the numeric state of the row is emitted under that very name by
line 120.  So the claim that no field with a null entry name is ever
emitted on the resulting point fails when the name collides with the state
field. -/
theorem c10_counterexample_state_field_collision :
    attrsOf c10row = some [("value", Json.null)] ∧
    (batch_insert_to_influx (fun _ => true) [c10row]).writes.map
      (fun p => (lookupField p.fields "value").isSome) = [true] := by
  refine ⟨rfl, by decide⟩

/-- Claim C10 as amended: an attribute entry whose key is deny-listed or
whose value is null contributes no field, and - as long as the key is not
also the state field name (value or state) - no field with that name
appears on the resulting DataPoint at all; every other entry is considered
for emission: its key either appears as a field or a per-field skip warning
for it is logged.  The Nodup hypothesis records that json.loads dicts carry
distinct keys. -/
theorem c10_attr_deny_and_null_filtering (st : SqlVal) (eid : String) (ts : ℚ)
    (blob : Option String) (kvs : List (String × Json)) (k : String) (v : Json)
    (h1 : SqlVal.isSentinel st = false)
    (h2 : (parse_attributes blob).1 = Json.obj kvs)
    (hnd : (kvs.map Prod.fst).Nodup)
    (hmem : (k, v) ∈ kvs)
    (hskip : (k = "id" || k = "id_str" || k = "update_available" || Json.isNull v) = true)
    (hk1 : k ≠ "value") (hk2 : k ≠ "state") :
    ∃ p evs, processRow ⟨st, eid, ts, blob⟩ = RowOutcome.emit p evs ∧
      lookupField p.fields k = none ∧
      (∀ k' v', (k', v') ∈ kvs →
        (k' = "id" || k' = "id_str" || k' = "update_available" || Json.isNull v') = false →
        (lookupField p.fields k').isSome = true ∨ LogEvent.fieldSkipped k' ∈ evs) := by
  refine ⟨_, _, processRow_obj ⟨st, eid, ts, blob⟩ kvs h1 h2, ?_, ?_⟩
  · show lookupField (attrLoop kvs [stateField st]).1 k = none
    have hall : ∀ v', (k, v') ∈ kvs →
        (k = "id" || k = "id_str" || k = "update_available" || Json.isNull v') = true := by
      intro v' hv
      rw [assoc_nodup_val_eq kvs k v' v hnd hv hmem]
      exact hskip
    rw [attrLoop_skipped k kvs _ hall]
    refine lookupField_single_ne _ _ ?_
    rcases stateField_name st with hn | hn
    · rw [hn]; exact fun e => hk1 e.symm
    · rw [hn]; exact fun e => hk2 e.symm
  · intro k' v' hm hns
    rcases attrLoop_considered k' v' kvs [stateField st] hm hns with hh | hh
    · exact Or.inl hh
    · exact Or.inr (List.mem_append_right _ hh)

/-- The record used as the witness input for the amended C10 theorem. -/
def c10wrow : SourceRow :=
  ⟨SqlVal.text "x", "sensor.a", 0, some "\x7b\"id\": \"1\", \"mode\": \"m\"\x7d"⟩

/-- Witness for the amended C10 theorem: the deny-listed id entry of the
witness record yields no id field, while mode is considered. -/
theorem c10_attr_deny_and_null_filtering_witness :
    ∃ p evs, processRow c10wrow = RowOutcome.emit p evs ∧
      lookupField p.fields "id" = none ∧
      (∀ k' v', (k', v') ∈ [("id", Json.str "1"), ("mode", Json.str "m")] →
        (k' = "id" || k' = "id_str" || k' = "update_available" || Json.isNull v') = false →
        (lookupField p.fields k').isSome = true ∨ LogEvent.fieldSkipped k' ∈ evs) :=
  c10_attr_deny_and_null_filtering (SqlVal.text "x") "sensor.a" 0
    (some "\x7b\"id\": \"1\", \"mode\": \"m\"\x7d")
    [("id", Json.str "1"), ("mode", Json.str "m")] "id" (Json.str "1")
    (by decide) rfl (by decide) (List.mem_cons_self _ _) (by decide)
    (by decide) (by decide)
